import Mathlib

/-!
Shallow embedding of src/src/sources/metadatasourcetaglib.cpp (mixxx),
covering MetadataSourceTagLib.importTrackMetadataAndCoverImage,
MetadataSourceTagLib.exportTrackMetadata, the MpegTagSaver export policy
and the SafelyWritableFile write transaction.

The underlying tag-codec library (track/taglib/trackmetadata.h) is an
external collaborator per the spec; its read/write accessors are modelled
as total functions on abstract tag-container records.
-/

namespace MetadataSourceTagLib

/-- The descriptive fields of the metadata record relevant to the claims.
Audio properties (duration, bitrate, ...) are out of scope per the spec. -/
structure TrackMetadata where
  title : Option String
  artist : Option String
  comment : Option String
deriving Repr, DecidableEq

/-- Contents of one embedded tag container as observed through the codec:
descriptive fields plus an optional embedded cover image (abstracted as a
numeric payload). -/
structure TagData where
  title : Option String
  artist : Option String
  comment : Option String
  cover : Option Nat
deriving Repr, DecidableEq

/-- One entry of the auxiliary picture list of a FLAC file. -/
structure Picture where
  usable : Bool
  image : Nat
deriving Repr, DecidableEq

/-- taglib::FileType as used by the switch statements of the source.
Unknown stands for every value hitting the default branch. -/
inductive FileType
  | MP3 | MP4 | FLAC | OGG | OPUS | WV | WAV | AIFF | Unknown
deriving Repr, DecidableEq

/-- The tag-container kinds of the spec data model.
FrameTag = ID3v2, LegacyFrameTag = ID3v1, KeyValueTag = APE,
AtomTag = MP4, CommentBlockTag = VorbisComment/Xiph,
RiffInfoTag = RIFF INFO, PlainTextChunks = AIFF text chunks. -/
inductive ContainerKind
  | FrameTag | LegacyFrameTag | KeyValueTag | AtomTag
  | CommentBlockTag | RiffInfoTag | PlainTextChunks
deriving Repr, DecidableEq

/-- Modelled from the spec: the ImportOutcome enumeration
(MetadataSource::ImportResult, declared in a header that is not under
src/). The spec lists the four variants Succeeded, Unavailable, Failed and
UnsupportedFormat; the source file itself only ever produces the first
three. -/
inductive ImportResult
  | Succeeded | Unavailable | Failed | UnsupportedFormat
deriving Repr, DecidableEq

/-- What the import function observes in the file on disk: whether the
audio-properties header parses, which tag containers are present and with
which contents, the AIFF text chunks, and the FLAC picture list. -/
structure FileState where
  audioPropsOk : Bool
  id3v2 : Option TagData
  ape : Option TagData
  id3v1 : Option TagData
  mp4 : Option TagData
  xiph : Option TagData
  info : Option TagData
  aiffName : Option String
  aiffAuth : Option String
  aiffAnno : Option String
  pictureList : List Picture
deriving Repr, DecidableEq

/-- State of a caller-supplied output sink (a pointer target in the
source): either untouched by the call or assigned a value. -/
inductive Sink (α : Type)
  | untouched
  | written (value : α)
deriving Repr, DecidableEq

/-- taglib::...::importTrackMetadataFromTag: copies the descriptive fields
of the tag into the metadata sink when that sink is supplied. -/
def importTrackMetadataFromTag (wantMetadata : Bool) (tag : TagData) :
    Sink TrackMetadata :=
  if wantMetadata then .written ⟨tag.title, tag.artist, tag.comment⟩
  else .untouched

/-- taglib::...::importCoverImageFromTag: when a cover sink is supplied and
the tag embeds a cover image, writes it and reports true; otherwise leaves
the sink untouched and reports false. -/
def importCoverImageFromTag (wantCover : Bool) (tag : TagData) :
    Sink (Option Nat) × Bool :=
  if wantCover then
    match tag.cover with
    | some c => (.written (some c), true)
    | none => (.untouched, false)
  else (.untouched, false)

/-- Modelled from the spec: taglib::xiph::importCoverImageFromPictureList
(declared in track/taglib/trackmetadata.h, not under src/). Per the spec,
the returned cover image is the first usable picture-list entry; when no
entry is usable a null image (none) results. -/
def importCoverImageFromPictureList (pictures : List Picture) : Option Nat :=
  (pictures.find? (fun p => p.usable)).map (fun p => p.image)

/-- The observable effects of one call to importTrackMetadataAndCoverImage:
the outcome, the final state of the two sinks, which container (if any) was
read, and whether the FLAC picture list was scanned. -/
structure ImportOutput where
  result : ImportResult
  metadataSink : Sink TrackMetadata
  coverSink : Sink (Option Nat)
  containerRead : Option ContainerKind
  pictureListScanned : Bool
deriving Repr, DecidableEq

/-- The break paths of the switch fall through to the final
ImportResult::Unavailable return, with both sinks left as they are. -/
def unavailableOutput : ImportOutput :=
  ⟨.Unavailable, .untouched, .untouched, none, false⟩

/-- MetadataSourceTagLib::importTrackMetadataAndCoverImage.
wantMetadata and wantCover model whether pTrackMetadata and pCoverImage
are non-null. Each case of the switch mirrors the source: the
audio-properties read first, then the fixed probe order of that format,
returning Succeeded from the first present container; the default branch
returns Failed. -/
def importTrackMetadataAndCoverImage (fileType : FileType) (f : FileState)
    (wantMetadata wantCover resetMissingTagMetadata : Bool) : ImportOutput :=
  -- VERIFY_OR_DEBUG_ASSERT(pTrackMetadata || pCoverImage)
  if !(wantMetadata || wantCover) then unavailableOutput
  else
    match fileType with
    | .MP3 =>
      if !f.audioPropsOk then unavailableOutput
      else
        match f.id3v2 with
        | some tag =>
            { result := .Succeeded
              metadataSink := importTrackMetadataFromTag wantMetadata tag
              coverSink := (importCoverImageFromTag wantCover tag).1
              containerRead := some .FrameTag
              pictureListScanned := false }
        | none =>
          match f.ape with
          | some tag =>
              { result := .Succeeded
                metadataSink := importTrackMetadataFromTag wantMetadata tag
                coverSink := (importCoverImageFromTag wantCover tag).1
                containerRead := some .KeyValueTag
                pictureListScanned := false }
          | none =>
            match f.id3v1 with
            | some tag =>
                -- generic taglib::importTrackMetadataFromTag only; the
                -- ID3v1 branch performs no cover-image import at all
                { result := .Succeeded
                  metadataSink := importTrackMetadataFromTag wantMetadata tag
                  coverSink := .untouched
                  containerRead := some .LegacyFrameTag
                  pictureListScanned := false }
            | none => unavailableOutput
    | .MP4 =>
      if !f.audioPropsOk then unavailableOutput
      else
        match f.mp4 with
        | some tag =>
            { result := .Succeeded
              metadataSink := importTrackMetadataFromTag wantMetadata tag
              coverSink := (importCoverImageFromTag wantCover tag).1
              containerRead := some .AtomTag
              pictureListScanned := false }
        | none => unavailableOutput
    | .FLAC =>
      if !f.audioPropsOk then unavailableOutput
      else
        -- VorbisComment takes precedence over ID3v2
        let probe : Option (ContainerKind × TagData) :=
          match f.xiph with
          | some tag => some (.CommentBlockTag, tag)
          | none =>
            match f.id3v2 with
            | some tag => some (.FrameTag, tag)
            | none => none
        match probe with
        | none => unavailableOutput
        | some (kind, tag) =>
          let mdSink := importTrackMetadataFromTag wantMetadata tag
          let covImported := importCoverImageFromTag wantCover tag
          -- picture-list fallback: only when a cover image is requested,
          -- the tag import succeeded, and no cover was found in the tag
          if wantCover && !covImported.2 then
            { result := .Succeeded
              metadataSink := mdSink
              coverSink := .written (importCoverImageFromPictureList f.pictureList)
              containerRead := some kind
              pictureListScanned := true }
          else
            { result := .Succeeded
              metadataSink := mdSink
              coverSink := covImported.1
              containerRead := some kind
              pictureListScanned := false }
    | .OGG =>
      if !f.audioPropsOk then unavailableOutput
      else
        match f.xiph with
        | some tag =>
            { result := .Succeeded
              metadataSink := importTrackMetadataFromTag wantMetadata tag
              coverSink := (importCoverImageFromTag wantCover tag).1
              containerRead := some .CommentBlockTag
              pictureListScanned := false }
        | none => unavailableOutput
    | .OPUS =>
      if !f.audioPropsOk then unavailableOutput
      else
        match f.xiph with
        | some tag =>
            { result := .Succeeded
              metadataSink := importTrackMetadataFromTag wantMetadata tag
              coverSink := (importCoverImageFromTag wantCover tag).1
              containerRead := some .CommentBlockTag
              pictureListScanned := false }
        | none => unavailableOutput
    | .WV =>
      if !f.audioPropsOk then unavailableOutput
      else
        match f.ape with
        | some tag =>
            { result := .Succeeded
              metadataSink := importTrackMetadataFromTag wantMetadata tag
              coverSink := (importCoverImageFromTag wantCover tag).1
              containerRead := some .KeyValueTag
              pictureListScanned := false }
        | none => unavailableOutput
    | .WAV =>
      if !f.audioPropsOk then unavailableOutput
      else
        match f.id3v2 with
        | some tag =>
            { result := .Succeeded
              metadataSink := importTrackMetadataFromTag wantMetadata tag
              coverSink := (importCoverImageFromTag wantCover tag).1
              containerRead := some .FrameTag
              pictureListScanned := false }
        | none =>
          match f.info with
          | some tag =>
              -- taglib::riff::importTrackMetadataFromTag reads metadata
              -- only; the INFO branch performs no cover-image import
              { result := .Succeeded
                metadataSink := importTrackMetadataFromTag wantMetadata tag
                coverSink := .untouched
                containerRead := some .RiffInfoTag
                pictureListScanned := false }
          | none => unavailableOutput
    | .AIFF =>
      if !f.audioPropsOk then unavailableOutput
      else
        match f.id3v2 with
        | some tag =>
            { result := .Succeeded
              metadataSink := importTrackMetadataFromTag wantMetadata tag
              coverSink := (importCoverImageFromTag wantCover tag).1
              containerRead := some .FrameTag
              pictureListScanned := false }
        | none =>
          -- AiffFile.importTrackMetadataFromTextChunks: returns false when
          -- the metadata sink is null, otherwise true iff a NAME, AUTH or
          -- ANNO chunk was found (writing the respective fields)
          if wantMetadata &&
              (f.aiffName.isSome || f.aiffAuth.isSome || f.aiffAnno.isSome) then
            { result := .Succeeded
              metadataSink := .written ⟨f.aiffName, f.aiffAuth, f.aiffAnno⟩
              coverSink := .untouched
              containerRead := some .PlainTextChunks
              pictureListScanned := false }
          else unavailableOutput
    | .Unknown =>
        ⟨.Failed, .untouched, .untouched, none, false⟩

/-- Presence of the three possible MP3 tag containers, for stating the
probe order of the MP3 import case. -/
def mp3ContainerPresent (f : FileState) : ContainerKind → Bool
  | .FrameTag => f.id3v2.isSome
  | .KeyValueTag => f.ape.isSome
  | .LegacyFrameTag => f.id3v1.isSome
  | _ => false

/-- Presence of at least one tag container readable by the import probe of
the given format, following the probe chain of each switch case. -/
def hasAnyContainer : FileType → FileState → Bool
  | .MP3, f => f.id3v2.isSome || f.ape.isSome || f.id3v1.isSome
  | .MP4, f => f.mp4.isSome
  | .FLAC, f => f.xiph.isSome || f.id3v2.isSome
  | .OGG, f => f.xiph.isSome
  | .OPUS, f => f.xiph.isSome
  | .WV, f => f.ape.isSome
  | .WAV, f => f.id3v2.isSome || f.info.isSome
  | .AIFF, f =>
      f.id3v2.isSome || f.aiffName.isSome || f.aiffAuth.isSome || f.aiffAnno.isSome
  | .Unknown, _ => false

/-! ## MpegTagSaver (export policy for MP3 files) -/

/-- The tag containers of an MP3 file as seen by MpegTagSaver. -/
structure MpegTags where
  id3v2 : Option TagData
  ape : Option TagData
  id3v1 : Option TagData
deriving Repr, DecidableEq

/-- The TagLib::MPEG::File tag bitmask accumulated by
MpegTagSaver::exportTrackMetadata; the all-false value is
TagLib::MPEG::File::NoTags. -/
structure MpegSaveMask where
  id3v2 : Bool
  ape : Bool
  id3v1 : Bool
deriving Repr, DecidableEq

/-- taglib::...::exportTrackMetadataIntoTag at the codec boundary: writes
the descriptive fields of the metadata record into an existing tag,
leaving any embedded cover image of the tag alone. -/
def exportTrackMetadataIntoTag (md : TrackMetadata) (tag : TagData) : TagData :=
  { tag with title := md.title, artist := md.artist, comment := md.comment }

/-- A freshly created, empty tag container (ID3v2Tag(true) on a file
without an ID3v2 tag). -/
def emptyTagData : TagData := ⟨none, none, none, none⟩

/-- MpegTagSaver::exportTrackMetadata: when the file is open, an existing
APE tag is written first and the ID3v2 tag is then only fetched if it
already exists; without an APE tag the ID3v2 tag is fetched or created.
The result is the file tag state after saving with the returned bitmask
(only tags flagged in the bitmask are saved). -/
def mpegExportTrackMetadata (isOpen : Bool) (tags : MpegTags)
    (md : TrackMetadata) : MpegTags × MpegSaveMask :=
  if isOpen then
    match tags.ape with
    | some apeTag =>
      let newApe := exportTrackMetadataIntoTag md apeTag
      match tags.id3v2 with
      | some v2 =>
          ({ tags with
              ape := some newApe
              id3v2 := some (exportTrackMetadataIntoTag md v2) },
            ⟨true, true, false⟩)
      | none =>
          -- pID3v2Tag remains null: exporting into it modifies nothing
          ({ tags with ape := some newApe }, ⟨false, true, false⟩)
    | none =>
      -- ID3v2Tag(true): get or create
      let v2 := exportTrackMetadataIntoTag md (tags.id3v2.getD emptyTagData)
      ({ tags with id3v2 := some v2 }, ⟨true, false, false⟩)
  else (tags, ⟨false, false, false⟩)

/-- MpegTagSaver::hasModifiedTags: the bitmask differs from NoTags. -/
def mpegHasModifiedTags (mask : MpegSaveMask) : Bool :=
  mask.id3v2 || mask.ape || mask.id3v1

/-! ## SafelyWritableFile (crash-safe write transaction) -/

/-- The three filesystem locations a transaction can touch: the original
path, the working copy (original + _temp) and the backup
(original + _orig). -/
inductive FsPath
  | orig | temp | backup
deriving Repr, DecidableEq

/-- One attempted mutating filesystem call (QFile::copy, QFile::rename,
QFile::remove). -/
inductive FsAction
  | copy (src dst : FsPath)
  | rename (src dst : FsPath)
  | remove (p : FsPath)
deriving Repr, DecidableEq

/-- The filesystem as the transaction observes it: the optional contents
(abstracted to Nat) at the three paths, the writability of the original,
and environment flags deciding which filesystem calls fail (permission
loss, disk errors, external interference). -/
structure FS where
  orig : Option Nat
  temp : Option Nat
  backup : Option Nat
  origWritable : Bool
  copyFails : Bool
  sizeVerifyFails : Bool
  removeTempFails : Bool
  renameOrigToBackupFails : Bool
  renameTempToOrigFails : Bool
  renameBackupToOrigFails : Bool
  removeBackupFails : Bool
deriving Repr, DecidableEq

/-- The two QString members of SafelyWritableFile, reduced to whether each
has been initialized (a null QString is also empty). -/
structure SafelyWritableFile where
  origFileNameSet : Bool
  tempFileNameSet : Bool
deriving Repr, DecidableEq

/-- SafelyWritableFile::SafelyWritableFile: checks writability of the
original, then (when a temporary file is used) clones the original to the
working path and verifies the size; on any failure both name members stay
uninitialized. QFile::copy fails when the source is missing, the
destination exists, or on an I/O error, removing any partial destination
itself. Returns the filesystem after the call, the object state, and the
attempted filesystem actions. -/
def mkSafelyWritableFile (fs : FS) (useTemporaryFile : Bool) :
    FS × SafelyWritableFile × List FsAction :=
  if !fs.origWritable then
    (fs, ⟨false, false⟩, [])
  else if useTemporaryFile then
    if fs.copyFails || fs.orig.isNone || fs.temp.isSome then
      (fs, ⟨false, false⟩, [.copy .orig .temp])
    else
      let fs1 : FS := { fs with temp := fs.orig }
      if fs.sizeVerifyFails then
        -- cleanup: remove the temporary file again
        if fs.removeTempFails then
          (fs1, ⟨false, false⟩, [.copy .orig .temp, .remove .temp])
        else
          ({ fs1 with temp := none }, ⟨false, false⟩,
            [.copy .orig .temp, .remove .temp])
      else
        (fs1, ⟨true, true⟩, [.copy .orig .temp])
  else
    (fs, ⟨true, false⟩, [])

/-- SafelyWritableFile::isReady: fileName() is non-empty, i.e. the member
the call returns has been initialized. -/
def SafelyWritableFile.isReady (s : SafelyWritableFile) : Bool :=
  if s.tempFileNameSet then true else s.origFileNameSet

/-- SafelyWritableFile::cancel: nothing to do when no temporary file name
is set; otherwise removes the temporary file when it exists (reporting an
error when removal fails) and clears both name members. The final Bool
reports whether an error was logged. -/
def SafelyWritableFile.cancel (fs : FS) (s : SafelyWritableFile) :
    FS × SafelyWritableFile × List FsAction × Bool :=
  if !s.tempFileNameSet then
    (fs, s, [], false)
  else if fs.temp.isSome then
    if fs.removeTempFails then
      (fs, ⟨false, false⟩, [.remove .temp], true)
    else
      ({ fs with temp := none }, ⟨false, false⟩, [.remove .temp], false)
  else
    (fs, ⟨false, false⟩, [], false)

/-- SafelyWritableFile::commit, the non-Windows branch of the source:
no-op success without a temporary file; otherwise renames the original to
the backup path (when the original exists), renames the temporary file to
the original path (attempting to restore the backup on failure), and
finally removes the file the oldFile handle points at. The oldFile handle
follows QFile::rename: after a successful backup rename it refers to the
backup path, otherwise it stays on the original path. The final Bool is
the return value. -/
def SafelyWritableFile.commit (fs : FS) (s : SafelyWritableFile) :
    FS × SafelyWritableFile × List FsAction × Bool :=
  if !s.tempFileNameSet then
    (fs, s, [], true)
  else if fs.temp.isNone then
    (fs, s, [], false)
  else if fs.orig.isSome then
    -- rename original -> backup; fails when the backup name is taken or
    -- on an environment failure
    if fs.renameOrigToBackupFails || fs.backup.isSome then
      (fs, s, [.rename .orig .backup], false)
    else
      let fs1 : FS := { fs with backup := fs.orig, orig := none }
      if fs1.renameTempToOrigFails then
        -- oldFile now refers to the backup path, which exists: restore it
        if fs1.renameBackupToOrigFails then
          (fs1, s,
            [.rename .orig .backup, .rename .temp .orig, .rename .backup .orig],
            false)
        else
          ({ fs1 with orig := fs1.backup, backup := none }, s,
            [.rename .orig .backup, .rename .temp .orig, .rename .backup .orig],
            false)
      else
        let fs2 : FS := { fs1 with orig := fs1.temp, temp := none }
        -- oldFile (backup path) exists: remove the backup
        if fs2.removeBackupFails then
          (fs2, s,
            [.rename .orig .backup, .rename .temp .orig, .remove .backup],
            false)
        else
          ({ fs2 with backup := none }, ⟨false, false⟩,
            [.rename .orig .backup, .rename .temp .orig, .remove .backup],
            true)
  else
    -- the original does not exist: no backup rename; oldFile keeps
    -- referring to the original path
    if fs.renameTempToOrigFails then
      -- oldFile does not exist, so neither the restore branch nor the
      -- final removal fires; the names are cleared and true is returned
      (fs, ⟨false, false⟩, [.rename .temp .orig], true)
    else
      let fs2 : FS := { fs with orig := fs.temp, temp := none }
      -- final check: oldFile refers to the original path, which now holds
      -- the renamed temporary file, so that file is removed again
      if fs2.removeBackupFails then
        (fs2, s, [.rename .temp .orig, .remove .orig], false)
      else
        ({ fs2 with orig := none }, ⟨false, false⟩,
          [.rename .temp .orig, .remove .orig], true)

/-! ## Export pipeline -/

/-- MetadataSource::ExportResult as used by the source. -/
inductive ExportResult
  | Succeeded | Failed | Unsupported
deriving Repr, DecidableEq

/-- Compile-time constant of the source: export always uses a temporary
working copy. -/
def kExportTrackMetadataIntoTemporaryFile : Bool := true

/-- MetadataSourceTagLib::exportTrackMetadata. The per-format TagSaver is
the codec boundary: hasModifiedTags and saveOk are the outcomes of its two
virtual calls and savedContent the bytes a successful save leaves at the
path the saver was given (fileName() of the transaction). The destructor
of SafelyWritableFile calls cancel on every return path. Returns the
outcome, the final filesystem, and the attempted filesystem actions. -/
def exportTrackMetadata (fs : FS) (fileType : FileType)
    (hasModifiedTags saveOk : Bool) (savedContent : Nat) :
    ExportResult × FS × List FsAction :=
  let m := mkSafelyWritableFile fs kExportTrackMetadataIntoTemporaryFile
  let fs1 := m.1
  let s1 := m.2.1
  let acts1 := m.2.2
  if !s1.isReady then
    let c := SafelyWritableFile.cancel fs1 s1
    (.Failed, c.1, acts1 ++ c.2.2.1)
  else if fileType = .Unknown then
    -- default branch of the switch: the transaction was already opened
    -- and is torn down by the destructor
    let c := SafelyWritableFile.cancel fs1 s1
    (.Unsupported, c.1, acts1 ++ c.2.2.1)
  else if hasModifiedTags then
    if saveOk then
      let fs2 : FS :=
        if s1.tempFileNameSet then { fs1 with temp := some savedContent }
        else { fs1 with orig := some savedContent }
      let k := SafelyWritableFile.commit fs2 s1
      if k.2.2.2 then
        let c := SafelyWritableFile.cancel k.1 k.2.1
        (.Succeeded, c.1, acts1 ++ k.2.2.1 ++ c.2.2.1)
      else
        let c := SafelyWritableFile.cancel k.1 k.2.1
        (.Failed, c.1, acts1 ++ k.2.2.1 ++ c.2.2.1)
    else
      let c := SafelyWritableFile.cancel fs1 s1
      (.Failed, c.1, acts1 ++ c.2.2.1)
  else
    let c := SafelyWritableFile.cancel fs1 s1
    (.Failed, c.1, acts1 ++ c.2.2.1)

/-! ## Theorems about the import path -/

/-- C1 counterexample: the spec claims that an unparseable audio-properties
header makes importTrackMetadataAndCoverImage return Failed; at this
concrete MP3 file whose header does not parse the import returns
Unavailable, which is distinct from Failed. -/
theorem c1_preamble_failure_counterexample :
    (importTrackMetadataAndCoverImage .MP3
        ⟨false, some ⟨some "t", none, none, none⟩, none, none, none, none,
          none, none, none, none, []⟩
        true true false).result = .Unavailable ∧
      ImportResult.Unavailable ≠ ImportResult.Failed := by
  decide

/-- C1 amended: for every recognized format, when the audio-properties
header cannot be parsed, importTrackMetadataAndCoverImage returns
Unavailable (the break paths of every case fall through to the final
Unavailable return). -/
theorem c1_preamble_failure_returns_unavailable
    (ft : FileType) (f : FileState) (wm wc r : Bool)
    (h1 : ft ≠ .Unknown) (h2 : f.audioPropsOk = false) :
    (importTrackMetadataAndCoverImage ft f wm wc r).result = .Unavailable := by
  cases wm <;> cases wc <;> cases ft <;>
    simp_all [importTrackMetadataAndCoverImage, unavailableOutput]

/-- C1 witness. -/
theorem c1_preamble_failure_returns_unavailable_witness :
    (importTrackMetadataAndCoverImage .MP3
        ⟨false, some ⟨some "t", none, none, none⟩, none, none, none, none,
          none, none, none, none, []⟩
        true true false).result = .Unavailable :=
  c1_preamble_failure_returns_unavailable .MP3
    ⟨false, some ⟨some "t", none, none, none⟩, none, none, none, none,
      none, none, none, none, []⟩
    true true false (by decide) rfl

/-- C3 counterexample: the spec claims that an unrecognized format makes
importTrackMetadataAndCoverImage return UnsupportedFormat; at this
concrete call on an unrecognized file type the import returns Failed,
which is distinct from UnsupportedFormat. -/
theorem c3_unknown_format_counterexample :
    (importTrackMetadataAndCoverImage .Unknown
        ⟨true, none, none, none, none, none, none, none, none, none, []⟩
        true true false).result = .Failed ∧
      ImportResult.Failed ≠ ImportResult.UnsupportedFormat := by
  decide

/-- C3 amended: for every import call on an unrecognized format that
supplies at least one sink, importTrackMetadataAndCoverImage returns
Failed (the default branch of the switch). -/
theorem c3_unknown_format_returns_failed
    (f : FileState) (wm wc r : Bool) (h : (wm || wc) = true) :
    (importTrackMetadataAndCoverImage .Unknown f wm wc r).result = .Failed := by
  cases wm <;> cases wc <;>
    simp_all [importTrackMetadataAndCoverImage, unavailableOutput]

/-- C3 witness. -/
theorem c3_unknown_format_returns_failed_witness :
    (importTrackMetadataAndCoverImage .Unknown
        ⟨true, none, none, none, none, none, none, none, none, none, []⟩
        true true false).result = .Failed :=
  c3_unknown_format_returns_failed
    ⟨true, none, none, none, none, none, none, none, none, none, []⟩
    true true false rfl

/-- C5: for every MP3 import (with a parseable header and at least one
sink), the container that is read is the first present one in the fixed
probe order FrameTag (ID3v2), KeyValueTag (APE), LegacyFrameTag (ID3v1);
and when both an ID3v2 and an APE tag are present and metadata is
requested, the imported metadata (title included) is that of the ID3v2
tag. -/
theorem c5_mp3_probe_order (f : FileState) (wm wc r : Bool)
    (h0 : (wm || wc) = true) (h1 : f.audioPropsOk = true) :
    (importTrackMetadataAndCoverImage .MP3 f wm wc r).containerRead =
        [ContainerKind.FrameTag, ContainerKind.KeyValueTag,
          ContainerKind.LegacyFrameTag].find? (mp3ContainerPresent f) ∧
      (∀ t u, f.id3v2 = some t → f.ape = some u → wm = true →
        (importTrackMetadataAndCoverImage .MP3 f wm wc r).metadataSink =
          .written ⟨t.title, t.artist, t.comment⟩) := by
  rcases hv : f.id3v2 with _ | t <;> rcases ha : f.ape with _ | u <;>
    rcases hl : f.id3v1 with _ | v <;> cases wm <;> cases wc <;>
      simp_all [importTrackMetadataAndCoverImage, mp3ContainerPresent,
        importTrackMetadataFromTag, unavailableOutput, List.find?]

/-- C5 witness: both tags present with conflicting titles; the ID3v2 title
wins and the ID3v2 container is the one read. -/
theorem c5_mp3_probe_order_witness :
    (importTrackMetadataAndCoverImage .MP3
        ⟨true, some ⟨some "a", none, none, none⟩,
          some ⟨some "b", none, none, none⟩, none, none, none, none,
          none, none, none, []⟩
        true true false).metadataSink =
      Sink.written ⟨some "a", none, none⟩ :=
  (c5_mp3_probe_order
      ⟨true, some ⟨some "a", none, none, none⟩,
        some ⟨some "b", none, none, none⟩, none, none, none, none,
        none, none, none, []⟩
      true true false rfl rfl).2
    ⟨some "a", none, none, none⟩ ⟨some "b", none, none, none⟩ rfl rfl rfl

/-- C6: for every FLAC import that requests a cover image: when no tag
container is readable (or the header does not parse) the picture list is
never scanned and the cover sink stays untouched; when a tag container is
read, the picture list is scanned exactly when that container embeds no
cover image; and when that fallback fires on a picture list whose first
usable entry exists, the written cover image is exactly that entry. -/
theorem c6_flac_picture_list_fallback (f : FileState) (wm r : Bool) :
    ((f.audioPropsOk = false ∨ (f.xiph = none ∧ f.id3v2 = none)) →
        (importTrackMetadataAndCoverImage .FLAC f wm true r).pictureListScanned
            = false ∧
          (importTrackMetadataAndCoverImage .FLAC f wm true r).coverSink
            = .untouched) ∧
      (∀ t, f.audioPropsOk = true →
        (f.xiph = some t ∨ (f.xiph = none ∧ f.id3v2 = some t)) →
        ((importTrackMetadataAndCoverImage .FLAC f wm true r).pictureListScanned
            = true ↔ t.cover = none)) ∧
      (∀ t p, f.audioPropsOk = true →
        (f.xiph = some t ∨ (f.xiph = none ∧ f.id3v2 = some t)) →
        t.cover = none →
        f.pictureList.find? (fun q => q.usable) = some p →
        (importTrackMetadataAndCoverImage .FLAC f wm true r).coverSink =
          .written (some p.image)) := by
  refine ⟨?_, ?_, ?_⟩
  · rintro (hp | ⟨hx, hv⟩) <;>
      simp_all [importTrackMetadataAndCoverImage, unavailableOutput]
  · intro t hp hor
    rcases hor with hx | ⟨hx, hv⟩ <;>
      rcases hc : t.cover with _ | c <;>
        simp_all [importTrackMetadataAndCoverImage, unavailableOutput,
          importCoverImageFromTag]
  · intro t p hp hor hc hfind
    rcases hor with hx | ⟨hx, hv⟩ <;>
      simp_all [importTrackMetadataAndCoverImage, unavailableOutput,
        importCoverImageFromTag, importCoverImageFromPictureList]

/-- C6 witness: Xiph tag without an embedded cover, picture list with a
usable entry; the fallback fires and writes that entry. -/
theorem c6_flac_picture_list_fallback_witness :
    (importTrackMetadataAndCoverImage .FLAC
        ⟨true, none, none, none, none, some ⟨some "t", none, none, none⟩,
          none, none, none, none, [⟨true, 4⟩]⟩
        true true false).coverSink = Sink.written (some 4) :=
  (c6_flac_picture_list_fallback
      ⟨true, none, none, none, none, some ⟨some "t", none, none, none⟩,
        none, none, none, none, [⟨true, 4⟩]⟩
      true false).2.2
    ⟨some "t", none, none, none⟩ ⟨true, 4⟩ rfl (Or.inl rfl) rfl rfl

/-- C7: for every recognized format, importing a file whose
audio-properties header parses but that contains none of the containers
probed for that format returns Unavailable (never Failed). -/
theorem c7_no_containers_unavailable
    (ft : FileType) (f : FileState) (wm wc r : Bool)
    (h1 : ft ≠ .Unknown) (h2 : f.audioPropsOk = true)
    (h3 : hasAnyContainer ft f = false) :
    (importTrackMetadataAndCoverImage ft f wm wc r).result = .Unavailable := by
  cases ft <;>
    simp_all [importTrackMetadataAndCoverImage, hasAnyContainer,
      unavailableOutput]

/-- C7 witness. -/
theorem c7_no_containers_unavailable_witness :
    (importTrackMetadataAndCoverImage .WAV
        ⟨true, none, none, none, none, none, none, none, none, none, []⟩
        true true false).result = .Unavailable :=
  c7_no_containers_unavailable .WAV
    ⟨true, none, none, none, none, none, none, none, none, none, []⟩
    true true false (by decide) rfl rfl

/-- C10: for every MP3 import in which neither an ID3v2 nor an APE tag is
present and an ID3v1 tag is read, the cover sink is never written even
though a cover image was requested, the container read is the
LegacyFrameTag, and the import reports Succeeded. -/
theorem c10_id3v1_no_cover_write (f : FileState) (wm r : Bool) (t : TagData)
    (h1 : f.audioPropsOk = true) (h2 : f.id3v2 = none) (h3 : f.ape = none)
    (h4 : f.id3v1 = some t) :
    (importTrackMetadataAndCoverImage .MP3 f wm true r).result = .Succeeded ∧
      (importTrackMetadataAndCoverImage .MP3 f wm true r).coverSink
        = .untouched ∧
      (importTrackMetadataAndCoverImage .MP3 f wm true r).containerRead
        = some .LegacyFrameTag := by
  simp_all [importTrackMetadataAndCoverImage, unavailableOutput]

/-- C10 witness. -/
theorem c10_id3v1_no_cover_write_witness :
    (importTrackMetadataAndCoverImage .MP3
        ⟨true, none, none, some ⟨some "t", none, none, some 3⟩, none, none,
          none, none, none, none, []⟩
        true true false).coverSink = Sink.untouched :=
  (c10_id3v1_no_cover_write
      ⟨true, none, none, some ⟨some "t", none, none, some 3⟩, none, none,
        none, none, none, none, []⟩
      true false ⟨some "t", none, none, some 3⟩ rfl rfl rfl rfl).2.1

/-! ## Theorems about the export path and the write transaction -/

/-- C4 counterexample: the spec claims that when the primary FrameTag
(ID3v2) container is absent it is created; at this concrete MP3 file that
has an APE tag but no ID3v2 tag, MpegTagSaver leaves the ID3v2 container
absent (only the APE tag is written). -/
theorem c4_mpeg_export_counterexample :
    (mpegExportTrackMetadata true
        ⟨none, some ⟨some "old", none, none, none⟩, none⟩
        ⟨some "new", none, none⟩).1.id3v2 = none ∧
      (mpegExportTrackMetadata true
          ⟨none, some ⟨some "old", none, none, none⟩, none⟩
          ⟨some "new", none, none⟩).2.id3v2 = false := by
  decide

/-- C4 amended: for every MP3 export on an open file, the ID3v1 container
is never updated or flagged for saving; when no APE tag exists, the
primary ID3v2 container is created (if absent) or updated and the APE
container stays absent or untouched; when an APE tag exists, it is updated
and the ID3v2 container is updated only if it already exists — it is not
created. -/
theorem c4_mpeg_export_policy (tags : MpegTags) (md : TrackMetadata) :
    (mpegExportTrackMetadata true tags md).1.id3v1 = tags.id3v1 ∧
      (mpegExportTrackMetadata true tags md).2.id3v1 = false ∧
      (tags.ape = none →
        (mpegExportTrackMetadata true tags md).1.id3v2 =
            some (exportTrackMetadataIntoTag md (tags.id3v2.getD emptyTagData)) ∧
          (mpegExportTrackMetadata true tags md).1.ape = none) ∧
      (∀ a, tags.ape = some a →
        (mpegExportTrackMetadata true tags md).1.ape =
            some (exportTrackMetadataIntoTag md a) ∧
          (tags.id3v2 = none →
            (mpegExportTrackMetadata true tags md).1.id3v2 = none) ∧
          (∀ v, tags.id3v2 = some v →
            (mpegExportTrackMetadata true tags md).1.id3v2 =
              some (exportTrackMetadataIntoTag md v))) := by
  rcases ha : tags.ape with _ | a <;> rcases hv : tags.id3v2 with _ | v <;>
    simp_all [mpegExportTrackMetadata]

/-- C4 witness. -/
theorem c4_mpeg_export_policy_witness :
    (mpegExportTrackMetadata true
        ⟨none, some ⟨some "old", none, none, none⟩, none⟩
        ⟨some "new", none, none⟩).1.id3v2 = none :=
  ((c4_mpeg_export_policy
        ⟨none, some ⟨some "old", none, none, none⟩, none⟩
        ⟨some "new", none, none⟩).2.2.2
      ⟨some "old", none, none, none⟩ rfl).2.1 rfl

/-- C2 counterexample: the spec claims that an unsupported format is
rejected without opening a write transaction (no working copy created);
at this concrete export call on a writable file of unrecognized type the
outcome is Unsupported, yet the attempted filesystem actions contain the
cloning of the original into the working copy. -/
theorem c2_unknown_format_counterexample :
    (exportTrackMetadata
        ⟨some 7, none, none, true, false, false, false, false, false,
          false, false⟩
        .Unknown true true 9).1 = .Unsupported ∧
      FsAction.copy .orig .temp ∈
        (exportTrackMetadata
            ⟨some 7, none, none, true, false, false, false, false, false,
              false, false⟩
            .Unknown true true 9).2.2 := by
  decide

/-- C2 amended: for every export call on a file of unrecognized type whose
transaction preparation succeeds (writable original, working copy cloned
and verified), the outcome is Unsupported; the transaction is opened
before the format dispatch — the original is cloned into a working copy —
and the destructor removes that working copy again, leaving the
filesystem as it was; when the preparation fails instead, the outcome is
Failed. -/
theorem c2_unknown_format_unsupported (fs : FS) (hm so : Bool) (c v : Nat)
    (h1 : fs.origWritable = true) (h2 : fs.orig = some v)
    (h3 : fs.temp = none) (h4 : fs.copyFails = false)
    (h5 : fs.sizeVerifyFails = false) (h6 : fs.removeTempFails = false) :
    exportTrackMetadata fs .Unknown hm so c =
      (.Unsupported, fs, [.copy .orig .temp, .remove .temp]) := by
  rcases fs with ⟨o, tmp, b, w, cf, svf, rtf, rob, rto, rbo, rbf⟩
  simp_all [exportTrackMetadata, mkSafelyWritableFile,
    kExportTrackMetadataIntoTemporaryFile, SafelyWritableFile.isReady,
    SafelyWritableFile.cancel]

/-- C2 witness. -/
theorem c2_unknown_format_unsupported_witness :
    exportTrackMetadata
        ⟨some 7, none, none, true, false, false, false, false, false,
          false, false⟩
        .Unknown true true 9 =
      (.Unsupported,
        ⟨some 7, none, none, true, false, false, false, false, false,
          false, false⟩,
        [.copy .orig .temp, .remove .temp]) :=
  c2_unknown_format_unsupported
    ⟨some 7, none, none, true, false, false, false, false, false,
      false, false⟩
    true true 9 7 rfl rfl rfl rfl rfl rfl

/-- C8: for every export call of a supported format on a file that is not
writable, the outcome is Failed, the filesystem is left exactly as it was
(original bytes unchanged, no working copy created), and not a single
mutating filesystem call is attempted — the writability check fails the
transaction before any copy. -/
theorem c8_read_only_export_fails (fs : FS) (ft : FileType)
    (hm so : Bool) (c : Nat)
    (h1 : ft ≠ .Unknown) (h2 : fs.origWritable = false) :
    exportTrackMetadata fs ft hm so c = (.Failed, fs, []) := by
  simp_all [exportTrackMetadata, mkSafelyWritableFile,
    kExportTrackMetadataIntoTemporaryFile, SafelyWritableFile.isReady,
    SafelyWritableFile.cancel]

/-- C8 witness. -/
theorem c8_read_only_export_fails_witness :
    exportTrackMetadata
        ⟨some 7, none, none, false, false, false, false, false, false,
          false, false⟩
        .MP3 true true 9 =
      (.Failed,
        ⟨some 7, none, none, false, false, false, false, false, false,
          false, false⟩,
        []) :=
  c8_read_only_export_fails
    ⟨some 7, none, none, false, false, false, false, false, false,
      false, false⟩
    .MP3 true true 9 (by decide) rfl

/-- After any cancel, the temporary file name member is cleared (or was
never set). -/
theorem cancel_tempFileName_unset (fs : FS) (s : SafelyWritableFile) :
    (SafelyWritableFile.cancel fs s).2.1.tempFileNameSet = false := by
  rcases hs : s.tempFileNameSet with _ | _ <;>
    simp_all [SafelyWritableFile.cancel] <;>
  rcases ht : fs.temp with _ | t <;>
    rcases hr : fs.removeTempFails with _ | _ <;>
      simp_all [SafelyWritableFile.cancel]

/-- Cancelling a transaction whose temporary file name is not set performs
no filesystem action, reports no error, and changes nothing. -/
theorem cancel_noop_of_tempFileName_unset (fs : FS) (s : SafelyWritableFile)
    (h : s.tempFileNameSet = false) :
    SafelyWritableFile.cancel fs s = (fs, s, [], false) := by
  simp [SafelyWritableFile.cancel, h]

/-- A commit that returns true leaves the temporary file name member
cleared (or it was never set). -/
theorem commit_true_tempFileName_unset (fs fs1 : FS)
    (s s1 : SafelyWritableFile) (acts : List FsAction)
    (h : SafelyWritableFile.commit fs s = (fs1, s1, acts, true)) :
    s1.tempFileNameSet = false := by
  rcases hs : s.tempFileNameSet with _ | _
  · rw [SafelyWritableFile.commit, hs] at h
    simp at h
    rw [← h.2.1]
    exact hs
  · unfold SafelyWritableFile.commit at h
    rw [hs] at h
    simp only [Bool.not_true, Bool.false_eq_true, if_false] at h
    repeat' split at h
    all_goals
      injection h with e1 h
    all_goals
      injection h with e2 h
    all_goals
      injection h with e3 e4
    all_goals
      first
        | exact Bool.noConfusion e4
        | rw [← e2]

/-- C9: cancellation is idempotent and terminal states are no-ops on
repeated release: whatever a first cancel did, a second cancel performs no
filesystem action, reports no error and changes nothing; and after a
commit that succeeded, the destructor-invoked cancel likewise performs no
filesystem action, reports no error and changes nothing. -/
theorem c9_cancel_idempotent (fs : FS) (s : SafelyWritableFile) :
    (∀ fs1 s1 acts err,
        SafelyWritableFile.cancel fs s = (fs1, s1, acts, err) →
        SafelyWritableFile.cancel fs1 s1 = (fs1, s1, [], false)) ∧
      (∀ fs1 s1 acts,
        SafelyWritableFile.commit fs s = (fs1, s1, acts, true) →
        SafelyWritableFile.cancel fs1 s1 = (fs1, s1, [], false)) := by
  constructor
  · intro fs1 s1 acts err h
    have hu : s1.tempFileNameSet = false := by
      have := cancel_tempFileName_unset fs s
      rw [h] at this
      exact this
    exact cancel_noop_of_tempFileName_unset fs1 s1 hu
  · intro fs1 s1 acts h
    exact cancel_noop_of_tempFileName_unset fs1 s1
      (commit_true_tempFileName_unset fs fs1 s s1 acts h)

/-- C9 witness: a concrete transaction with a working copy is cancelled
once (removing the working copy); the second cancel is a no-op. -/
theorem c9_cancel_idempotent_witness :
    SafelyWritableFile.cancel
        ⟨some 7, none, none, true, false, false, false, false, false,
          false, false⟩
        ⟨false, false⟩ =
      (⟨some 7, none, none, true, false, false, false, false, false,
          false, false⟩,
        ⟨false, false⟩, [], false) :=
  (c9_cancel_idempotent
      ⟨some 7, some 7, none, true, false, false, false, false, false,
        false, false⟩
      ⟨true, true⟩).1
    ⟨some 7, none, none, true, false, false, false, false, false,
      false, false⟩
    ⟨false, false⟩ [.remove .temp] false (by decide)

end MetadataSourceTagLib
